import Mathlib

/-!
Shallow embedding of the JDN-BACKEND billing engine
(`src/utils/billingEngine.js`) and rate-of-change analytics
(`src/utils/rocUtils.js`).

Modelling conventions:
* JavaScript numbers are exact rationals (ℚ); `Math.round x` is
  `⌊x + 1/2⌋` (half-up, also for negatives) and `Math.ceil` is `⌈x⌉`.
* `Number(v) || k` coerces falsy values to `k`; over ℚ the only falsy
  number is 0, so it is modelled as `if v = 0 then k else v` (or the
  identity where `k = 0`).
* Database rows are list elements; Sequelize `findOne` is `List.find?`,
  `findAll` with a `where` clause is `List.filter`.
* Calendar dates (the `YYYY-MM-DD` strings of the source) are `Ymd`
  triples; comparisons use the lexicographic key, matching string order
  of well-formed `YYYY-MM-DD` values.
* Fallible code returns `Except`/`Option`; each JS `throw` site has its
  own error constructor, named after the thrown message.
-/

attribute [local semireducible] Rat.mul Rat.add Rat.sub Rat.inv

deriving instance DecidableEq for Except

/-- ASCII lower-casing of one character, as JS `String.prototype.toLowerCase`
acts on the ASCII meter-type strings used by the engine. -/
def lowerChar (c : Char) : Char :=
  if 'A' ≤ c ∧ c ≤ 'Z' then Char.ofNat (c.toNat + 32) else c

/-- ASCII lower-casing of a string (JS `.toLowerCase()`). -/
def lowerStr (s : String) : String :=
  ⟨s.data.map lowerChar⟩

/-- JS `Math.round(x * 10^d) / 10^d`, the shape used by both `round`
helpers of the source; `Math.round r = ⌊r + 1/2⌋`. -/
def roundTo (d : ℕ) (x : ℚ) : ℚ :=
  ((⌊x * (10 : ℚ) ^ d + 1 / 2⌋ : ℤ) : ℚ) / (10 : ℚ) ^ d

theorem roundTo_mono (d : ℕ) {a b : ℚ} (h : a ≤ b) :
    roundTo d a ≤ roundTo d b := by
  unfold roundTo
  have h10 : (0 : ℚ) < (10 : ℚ) ^ d := by positivity
  have hm : a * (10 : ℚ) ^ d + 1 / 2 ≤ b * (10 : ℚ) ^ d + 1 / 2 := by nlinarith
  have hf := Int.floor_le_floor hm
  have hc : ((⌊a * (10 : ℚ) ^ d + 1 / 2⌋ : ℤ) : ℚ) ≤ ((⌊b * (10 : ℚ) ^ d + 1 / 2⌋ : ℤ) : ℚ) := by
    exact_mod_cast hf
  exact div_le_div_of_nonneg_right hc h10.le

theorem roundTo_idem (d : ℕ) (x : ℚ) :
    roundTo d (roundTo d x) = roundTo d x := by
  unfold roundTo
  have h10 : ((10 : ℚ) ^ d) ≠ 0 := by positivity
  set k : ℤ := ⌊x * (10 : ℚ) ^ d + 1 / 2⌋ with hk
  have hmul : ((k : ℚ) / (10 : ℚ) ^ d) * (10 : ℚ) ^ d = (k : ℚ) :=
    div_mul_cancel₀ _ h10
  rw [hmul]
  have hfl : ⌊(k : ℚ) + 1 / 2⌋ = k := by
    have h1 : ((k : ℚ) + 1 / 2) = 1 / 2 + (k : ℚ) := by ring
    rw [h1, Int.floor_add_int]
    norm_num
  rw [hfl]

/-- A calendar date, the meaning of a well-formed `YYYY-MM-DD` string. -/
structure Ymd where
  y : ℤ
  m : ℕ
  d : ℕ
deriving DecidableEq

/-- Lexicographic key; on calendar dates it orders exactly like the
`YYYY-MM-DD` strings the source compares. -/
def Ymd.key (e : Ymd) : ℤ := e.y * 10000 + e.m * 100 + e.d

/-- Gregorian month length, the month arithmetic JS `Date.UTC` performs. -/
def daysInMonth (y : ℤ) (m : ℕ) : ℕ :=
  if m = 2 then (if y % 4 = 0 ∧ (y % 100 ≠ 0 ∨ y % 400 = 0) then 29 else 28)
  else if m = 4 ∨ m = 6 ∨ m = 9 ∨ m = 11 then 30 else 31

/-- Days since 1970-01-01 of a civil date (proleptic Gregorian), the
value JS `Date.UTC(y, m-1, d) / DAY_MS` yields for in-range months. -/
def daysFromCivil (y m d : ℤ) : ℤ :=
  let y₁ := if m ≤ 2 then y - 1 else y
  let era := y₁ / 400
  let yoe := y₁ - era * 400
  let mp := if 2 < m then m - 3 else m + 9
  let doy := (153 * mp + 2) / 5 + d - 1
  let doe := yoe * 365 + yoe / 4 - yoe / 100 + doy
  era * 146097 + doe - 719468

/-- Civil date of a days-since-epoch count: the `getUTCFullYear` /
`getUTCMonth` / `getUTCDate` decomposition of a JS `Date`. -/
def civilFromDays (z : ℤ) : Ymd :=
  let z₁ := z + 719468
  let era := z₁ / 146097
  let doe := z₁ - era * 146097
  let yoe := (doe - doe / 1460 + doe / 36524 - doe / 146096) / 365
  let y := yoe + era * 400
  let doy := doe - (365 * yoe + yoe / 4 - yoe / 100)
  let mp := (5 * doy + 2) / 153
  let d := doy - (153 * mp + 2) / 5 + 1
  let m := if mp < 10 then mp + 3 else mp - 9
  ⟨if m ≤ 2 then y + 1 else y, m.toNat, d.toNat⟩

/-- Days since the epoch of a parsed `YYYY-MM-DD` end date
(JS `new Date(s + 'T00:00:00Z')`). -/
def ymdToDays (e : Ymd) : ℤ := daysFromCivil e.y e.m e.d

/-- JS `Date.UTC(y, m0, day)` in days: `m0` is 0-based and may lie
outside `[0, 11]` (the year is carried), `day` may be 0 or overflow
(the month is carried). -/
def dateUTC (y m0 day : ℤ) : ℤ :=
  let y₁ := y + m0 / 12
  let m₁ := m0 % 12 + 1
  daysFromCivil y₁ m₁ 1 + (day - 1)

/-- A `{start, end}` window of the source (`end` is a Lean keyword, so
the field is `stop`). -/
structure Span where
  start : Ymd
  stop : Ymd
deriving DecidableEq

/-! ## Database rows (`src/models`, attribute lists of the queries) -/

structure MeterRow where
  meter_id : String
  meter_sn : String
  meter_type : String
  meter_mult : ℚ
  stall_id : String
deriving DecidableEq

structure StallRow where
  stall_id : String
  building_id : String
  tenant_id : String
deriving DecidableEq

structure BuildingRow where
  building_id : String
  emin_con : ℚ
  wmin_con : ℚ
  erate_perKwH : ℚ
  wrate_perCbM : ℚ
  lrate_perKg : ℚ
  markup_rate : ℚ
deriving DecidableEq

structure TenantRow where
  tenant_id : String
  tenant_name : String
  vat_code : Option String
  wt_code : Option String
  for_penalty : Bool
deriving DecidableEq

structure VatRow where
  vat_code : String
  e_vat : ℚ
  w_vat : ℚ
  l_vat : ℚ
deriving DecidableEq

structure WtRow where
  wt_code : String
  e_wt : ℚ
  w_wt : ℚ
  l_wt : ℚ
deriving DecidableEq

structure ReadingRow where
  meter_id : String
  lastread_date : Ymd
  reading_value : ℚ
deriving DecidableEq

/-- The externally supplied persistent state the engine reads. -/
structure Db where
  meters : List MeterRow
  stalls : List StallRow
  buildings : List BuildingRow
  tenants : List TenantRow
  vats : List VatRow
  wts : List WtRow
  readings : List ReadingRow
deriving DecidableEq

namespace BillingEngine

/-- `round(n, d = 2)` of `billingEngine.js` at its default precision;
the NaN guard cannot fire over ℚ. -/
def round (n : ℚ) : ℚ := roundTo 2 n

/-- `normalizePct` of `billingEngine.js` line 20: `n >= 1 ? n / 100 : n`
(`Number(v) || 0` is the identity over ℚ). -/
def normalizePct (v : ℚ) : ℚ := if 1 ≤ v then v / 100 else v

/-- `LPG_MIN_CON` of `billingEngine.js` line 25. -/
def LPG_MIN_CON : ℚ := 1

structure TaxOut where
  vat : ℚ
  wt : ℚ
  penalty : ℚ
  total : ℚ
deriving DecidableEq

/-- `applyTaxes` of `billingEngine.js` lines 117-124. -/
def applyTaxes (base vatRate wtRate : ℚ) (forPenalty : Bool) (penaltyRate : ℚ) : TaxOut :=
  let b := base
  let vat := b * vatRate
  let wt := vat * wtRate
  let pen := if forPenalty then b * penaltyRate else 0
  let total := b + vat + pen - wt
  ⟨round vat, round wt, round pen, round total⟩

/-- `getUtilityRate` of `billingEngine.js` lines 126-132; the
unsupported-type `throw` is `none`. -/
def getUtilityRate (mtype : String) (b : BuildingRow) : Option ℚ :=
  let t := lowerStr mtype
  if t = "electric" then some b.erate_perKwH
  else if t = "water" then some b.wrate_perCbM
  else if t = "lpg" then some b.lrate_perKg
  else none

/-- `getMinConsumption` of `billingEngine.js` lines 134-140. -/
def getMinConsumption (mtype : String) (b : BuildingRow) : Option ℚ :=
  let t := lowerStr mtype
  if t = "electric" then some b.emin_con
  else if t = "water" then some b.wmin_con
  else if t = "lpg" then some LPG_MIN_CON
  else none

/-- `computeUnitsOnly` of `billingEngine.js` lines 142-160. -/
def computeUnitsOnly (meterType : String) (meterMult : ℚ) (b : BuildingRow)
    (prevIdx currIdx : ℚ) : Option ℚ :=
  let t := lowerStr meterType
  let mult := if meterMult = 0 then 1 else meterMult
  let raw := (currIdx - prevIdx) * mult
  if t = "electric" then some (round (if 0 < raw then raw else b.emin_con))
  else if t = "water" then some (round (if 0 < raw then raw else b.wmin_con))
  else if t = "lpg" then some (round (if 0 < raw then raw else LPG_MIN_CON))
  else none

structure Rates where
  utility_rate : ℚ
  markup_rate : ℚ
  system_rate : ℚ
deriving DecidableEq

structure ChargeOut where
  consumption : ℚ
  base : ℚ
  vat : ℚ
  wt : ℚ
  penalty : ℚ
  total : ℚ
  rates : Rates
deriving DecidableEq

structure Knob3 where
  e : ℚ
  w : ℚ
  l : ℚ
deriving DecidableEq

structure TaxKnobs where
  vat : Knob3
  wt : Knob3
deriving DecidableEq

/-- `computeChargesByType` of `billingEngine.js` lines 162-181. -/
def computeChargesByType (mtype : String) (mult : ℚ) (b : BuildingRow)
    (tk : TaxKnobs) (prevIdx currIdx : ℚ) (forPenalty : Bool) (penaltyRate : ℚ) :
    Option ChargeOut :=
  let t := lowerStr mtype
  match getUtilityRate t b with
  | none => none
  | some rate =>
    let vatR := if t = "electric" then tk.vat.e else if t = "water" then tk.vat.w else tk.vat.l
    let wtR := if t = "electric" then tk.wt.e else if t = "water" then tk.wt.w else tk.wt.l
    match computeUnitsOnly t mult b prevIdx currIdx with
    | none => none
    | some consumption =>
      let base := consumption * rate
      let taxes := applyTaxes base vatR wtR forPenalty penaltyRate
      some ⟨round consumption, round base, taxes.vat, taxes.wt, taxes.penalty, taxes.total,
        ⟨rate, 0, rate⟩⟩

/-- `computeChargesByTypeWithMarkup` of `billingEngine.js` lines 183-204. -/
def computeChargesByTypeWithMarkup (mtype : String) (mult : ℚ) (b : BuildingRow)
    (tk : TaxKnobs) (prevIdx currIdx : ℚ) (forPenalty : Bool) (penaltyRate : ℚ) :
    Option ChargeOut :=
  let t := lowerStr mtype
  match getUtilityRate t b with
  | none => none
  | some utilityRate =>
    let markup := b.markup_rate
    let systemRate := utilityRate + markup
    let vatR := if t = "electric" then tk.vat.e else if t = "water" then tk.vat.w else tk.vat.l
    let wtR := if t = "electric" then tk.wt.e else if t = "water" then tk.wt.w else tk.wt.l
    match computeUnitsOnly t mult b prevIdx currIdx with
    | none => none
    | some consumption =>
      let base := consumption * systemRate
      let taxes := applyTaxes base vatR wtR forPenalty penaltyRate
      some ⟨round consumption, round base, taxes.vat, taxes.wt, taxes.penalty, taxes.total,
        ⟨utilityRate, markup, systemRate⟩⟩

structure Periods where
  curr : Span
  prev : Span
  preprev : Span
deriving DecidableEq

/-- `getPeriodStrings` of `billingEngine.js` lines 39-65, on an
already-parsed valid date.  The JS `lastOfMonth(y, m)` is
`Date.UTC(y, m+1, 1) - DAY_MS`, the first day of the next month minus
one day, i.e. the last day of month `m`; here that value is written
directly with `daysInMonth`. -/
def getPeriodStrings (e : Ymd) : Periods :=
  let y := e.y
  let m := e.m
  let prevYear := if m = 1 then y - 1 else y
  let prevMonth := if m = 1 then 12 else m - 1
  let pprevYear := if prevMonth = 1 then prevYear - 1 else prevYear
  let pprevMonth := if prevMonth = 1 then 12 else prevMonth - 1
  { curr := ⟨⟨y, m, 1⟩, e⟩,
    prev := ⟨⟨prevYear, prevMonth, 1⟩,
             ⟨prevYear, prevMonth, daysInMonth prevYear prevMonth⟩⟩,
    preprev := ⟨⟨pprevYear, pprevMonth, 1⟩,
                ⟨pprevYear, pprevMonth, daysInMonth pprevYear pprevMonth⟩⟩ }

structure TwoSegments where
  prev : Option Span
  curr : Span
deriving DecidableEq

/-- `getTwoSegmentWindow` of `billingEngine.js` lines 67-85, through the
epoch-day arithmetic the JS performs. -/
def getTwoSegmentWindow (e : Ymd) : TwoSegments :=
  let endMonthStart := dateUTC e.y ((e.m : ℤ) - 1) 1
  let prevMonthEnd := endMonthStart - 1
  let oneMonthEarlier := dateUTC e.y ((e.m : ℤ) - 1 - 1) e.d
  let overallStart := oneMonthEarlier + 1
  let prevSeg : Option Span :=
    if (civilFromDays overallStart).d = 1 then none
    else some ⟨civilFromDays overallStart, civilFromDays prevMonthEnd⟩
  { prev := prevSeg, curr := ⟨civilFromDays endMonthStart, e⟩ }

end BillingEngine

namespace RocUtils

/-- `round(n, d = 2)` of `rocUtils.js` at its default precision; the
non-finite guard cannot fire over ℚ. -/
def round (n : ℚ) : ℚ := roundTo 2 n

/-- `LPG_MIN_CON` of `rocUtils.js` line 101 (set to 0 there, unlike the
billing path). -/
def LPG_MIN_CON : ℚ := 0

/-- `computeUnits` of `rocUtils.js` lines 102-117; the
unsupported-type `throw` is `none`. -/
def computeUnits (type : String) (mult : ℚ) (b : BuildingRow)
    (prevIdx currIdx : ℚ) : Option ℚ :=
  let t := lowerStr type
  let raw := (currIdx - prevIdx) * (if mult = 0 then 1 else mult)
  if t = "electric" then some (round (if 0 < raw then raw else b.emin_con))
  else if t = "water" then some (round (if 0 < raw then raw else b.wmin_con))
  else if t = "lpg" then some (round (if 0 < raw then raw else LPG_MIN_CON))
  else none

/-- `monthSpanFor` of `rocUtils.js` lines 25-32.  The JS builds
`dtUTC(Y, M0, 1)` and `dtUTC(Y, M0+1, 0)`: `Date.UTC` carries the
(possibly negative) 0-based month `M0` into the year by floor
division, and day 0 of the following month is the last day of the
target month, written here with `daysInMonth`. -/
def monthSpanFor (e : Ymd) (monthsBack : ℤ) : Span :=
  let M0 : ℤ := (e.m : ℤ) - 1 - monthsBack
  let sy := e.y + M0 / 12
  let sm : ℕ := (M0 % 12 + 1).toNat
  ⟨⟨sy, sm, 1⟩, ⟨sy, sm, daysInMonth sy sm⟩⟩

/-- The rate-of-change expression shared by `computeROCForMeter`
(`rocUtils.js` lines 179-181) and `groupMetersByType` (lines 266-269):
`a2p > 0 ? Math.ceil(((p2c - a2p) / a2p) * 100) : null`. -/
def rocOf (a2p p2c : ℚ) : Option ℤ :=
  if 0 < a2p then some ⌈(p2c - a2p) / a2p * 100⌉ else none

/-- Group totals finalisation of `groupMetersByType`
(`rocUtils.js` lines 258-270): both summed consumptions are rounded via
`Math.round(x * 100) / 100`, then the group `rate_of_change` is computed
from the rounded sums. -/
structure RocGroupTotals where
  anchor_to_previous : ℚ
  previous_to_current : ℚ
  rate_of_change : Option ℤ
deriving DecidableEq

/-- See `RocGroupTotals`. -/
def finalizeGroupTotals (a2pSum p2cSum : ℚ) : RocGroupTotals :=
  let a := roundTo 2 a2pSum
  let p := roundTo 2 p2cSum
  ⟨a, p, rocOf a p⟩

end RocUtils

namespace BillingEngine

/-- Latest row by `lastread_date` among candidates, the effect of the
`ORDER BY lastread_date DESC` + `findOne` of the source (ties keep the
first row, the database order being unspecified). -/
def latestIn (rows : List ReadingRow) : Option ReadingRow :=
  rows.foldl
    (fun acc r =>
      match acc with
      | none => some r
      | some a => if a.lastread_date.key < r.lastread_date.key then some r else some a)
    none

/-- `getMaxReadingInPeriod` of `billingEngine.js` lines 87-97: the
reading of maximal date within the inclusive window
(`Number(reading_value) || 0` is the identity over ℚ). -/
def getMaxReadingInPeriod (db : Db) (meterId : String) (s t : Ymd) : Option ReadingRow :=
  latestIn (db.readings.filter
    (fun r => decide (r.meter_id = meterId ∧
      s.key ≤ r.lastread_date.key ∧ r.lastread_date.key ≤ t.key)))

/-- `getTenantTaxKnobs` of `billingEngine.js` lines 99-115: missing
codes or rows resolve to all-zero knobs. -/
def getTenantTaxKnobs (db : Db) (tenant : TenantRow) : TaxKnobs :=
  let vatRow : Option VatRow := match tenant.vat_code with
    | some c => db.vats.find? (fun r => r.vat_code == c)
    | none => none
  let wtRow : Option WtRow := match tenant.wt_code with
    | some c => db.wts.find? (fun r => r.wt_code == c)
    | none => none
  { vat :=
      ⟨normalizePct (match vatRow with | some r => r.e_vat | none => 0),
       normalizePct (match vatRow with | some r => r.w_vat | none => 0),
       normalizePct (match vatRow with | some r => r.l_vat | none => 0)⟩,
    wt :=
      ⟨normalizePct (match wtRow with | some r => r.e_wt | none => 0),
       normalizePct (match wtRow with | some r => r.w_wt | none => 0),
       normalizePct (match wtRow with | some r => r.l_wt | none => 0)⟩ }

/-- The scope-restriction guard of `billingEngine.js` lines 223-229 and
633-639: `Array.isArray(r) && r.length && !r.includes(String(bid))`.
A `null` restriction is `none`. -/
def restrictViolated (restrict : Option (List String)) (bid : String) : Bool :=
  match restrict with
  | some l => !l.isEmpty && !l.contains bid
  | none => false

/-- One constructor per `throw` site of the meter billing path, named
after the thrown message. -/
inductive BErr where
  | meterNotFound
  | stallNotFound
  | forbidden
  | buildingNotFound
  | tenantNotFound
  | noCurrentReadings
  | noPreviousReadings
  | unsupportedMeterType
deriving DecidableEq

structure MeterRef where
  meter_id : String
  meter_sn : String
  meter_type : String
  meter_mult : ℚ
deriving DecidableEq

structure StallRef where
  stall_id : String
  building_id : String
  tenant_id : String
deriving DecidableEq

structure TenantRef where
  tenant_id : String
  tenant_name : String
  vat_code : Option String
  wt_code : Option String
  for_penalty : Bool
deriving DecidableEq

structure PeriodOut where
  previous : Option Span
  current : Span
deriving DecidableEq

structure IndexOut where
  prev_index : ℚ
  curr_index : ℚ
deriving DecidableEq

structure Totals where
  consumption : ℚ
  base : ℚ
  vat : ℚ
  wt : ℚ
  penalty : ℚ
  total : ℚ
deriving DecidableEq

/-- The result object of `computeBillingForMeter`
(`billingEngine.js` lines 275-313). -/
structure MeterBill where
  meter : MeterRef
  stall : StallRef
  tenant : TenantRef
  period : PeriodOut
  indices : IndexOut
  billing : ChargeOut
  totals : Totals
  rate_of_change_percent : ℚ
  generated_at : String
deriving DecidableEq

/-- `computeBillingForMeter` of `billingEngine.js` lines 206-314, over a
`Db` snapshot and an explicit clock reading `now` (the source stamps
`generated_at` from `new Date()`). `endDate` is the parsed valid
`YYYY-MM-DD` date (the format check of `getPeriodStrings` is a
precondition here). -/
def computeBillingForMeter (db : Db) (meterId : String) (endDate : Ymd)
    (penaltyRatePct : ℚ) (restrictToBuildingIds : Option (List String))
    (now : String) : Except BErr MeterBill :=
  match db.meters.find? (fun m => m.meter_id == meterId) with
  | none => .error .meterNotFound
  | some meter =>
    match db.stalls.find? (fun s => s.stall_id == meter.stall_id) with
    | none => .error .stallNotFound
    | some stall =>
      if restrictViolated restrictToBuildingIds stall.building_id then .error .forbidden
      else
        match db.buildings.find? (fun b => b.building_id == stall.building_id) with
        | none => .error .buildingNotFound
        | some building =>
          match db.tenants.find? (fun t => t.tenant_id == stall.tenant_id) with
          | none => .error .tenantNotFound
          | some tenant =>
            let taxKnobs := getTenantTaxKnobs db tenant
            let forPenalty := tenant.for_penalty
            let penaltyRate := normalizePct penaltyRatePct
            let indexPeriods := getPeriodStrings endDate
            let prevMax := getMaxReadingInPeriod db meterId
              indexPeriods.prev.start indexPeriods.prev.stop
            let currMax := getMaxReadingInPeriod db meterId
              indexPeriods.curr.start indexPeriods.curr.stop
            match currMax with
            | none => .error .noCurrentReadings
            | some currMax =>
              match prevMax with
              | none => .error .noPreviousReadings
              | some prevMax =>
                let displayPeriods := getTwoSegmentWindow endDate
                let mtype := lowerStr meter.meter_type
                let mult := if meter.meter_mult = 0 then 1 else meter.meter_mult
                match computeChargesByType mtype mult building taxKnobs
                  prevMax.reading_value currMax.reading_value forPenalty penaltyRate with
                | none => .error .unsupportedMeterType
                | some bill =>
                  match computeUnitsOnly mtype mult building
                    (prevMax.reading_value - (if mult = 0 then 1 else mult))
                    prevMax.reading_value with
                  | none => .error .unsupportedMeterType
                  | some prevUnits =>
                    let currUnits := bill.consumption
                    let rocPercent :=
                      if 0 < prevUnits then roundTo 0 ((currUnits - prevUnits) / prevUnits * 100)
                      else 0
                    .ok
                      { meter := ⟨meter.meter_id, meter.meter_sn, mtype, mult⟩,
                        stall := ⟨stall.stall_id, stall.building_id, stall.tenant_id⟩,
                        tenant := ⟨tenant.tenant_id, tenant.tenant_name,
                          tenant.vat_code, tenant.wt_code, forPenalty⟩,
                        period := ⟨displayPeriods.prev, displayPeriods.curr⟩,
                        indices := ⟨roundTo 2 prevMax.reading_value,
                          roundTo 2 currMax.reading_value⟩,
                        billing := bill,
                        totals := ⟨bill.consumption, bill.base, bill.vat, bill.wt,
                          bill.penalty, bill.total⟩,
                        rate_of_change_percent := rocPercent,
                        generated_at := now }

end BillingEngine

namespace BillingEngine

/-- One `{base, vat, wt, penalty, total}` accumulator bucket of the
batch paths (`billingEngine.js` lines 446-451 etc.). -/
structure Tot where
  base : ℚ
  vat : ℚ
  wt : ℚ
  penalty : ℚ
  total : ℚ
deriving DecidableEq

def Tot.zero : Tot := ⟨0, 0, 0, 0, 0⟩

/-- `bucket.X += r.billing.X` for the five monetary fields. -/
def Tot.addBill (t : Tot) (b : ChargeOut) : Tot :=
  ⟨t.base + b.base, t.vat + b.vat, t.wt + b.wt, t.penalty + b.penalty, t.total + b.total⟩

/-- End-of-loop rounding of a bucket (`round` on every summed field). -/
def Tot.round2 (t : Tot) : Tot :=
  ⟨roundTo 2 t.base, roundTo 2 t.vat, roundTo 2 t.wt, roundTo 2 t.penalty, roundTo 2 t.total⟩

structure TotalsByType where
  electric : Tot
  water : Tot
  lpg : Tot
deriving DecidableEq

def TotalsByType.zero : TotalsByType := ⟨Tot.zero, Tot.zero, Tot.zero⟩

/-- One iteration of the accumulation `totals_by_type[k].X += ...;
grand_totals.X += ...` (`billingEngine.js` lines 461-471 / 672-683);
`k` is the lower-cased meter type, always one of the three buckets for
a successfully billed meter. -/
def accumulate (acc : TotalsByType × Tot) (r : MeterBill) : TotalsByType × Tot :=
  let k := r.meter.meter_type
  let tbt := acc.1
  let tbt' :=
    if k = "electric" then { tbt with electric := tbt.electric.addBill r.billing }
    else if k = "water" then { tbt with water := tbt.water.addBill r.billing }
    else if k = "lpg" then { tbt with lpg := tbt.lpg.addBill r.billing }
    else tbt
  (tbt', acc.2.addBill r.billing)

/-- The batch result shape `{ meters, totals_by_type, grand_totals }`. -/
structure BatchOut where
  meters : List MeterBill
  totals_by_type : TotalsByType
  grand_totals : Tot
deriving DecidableEq

/-- Accumulation over the collected per-meter results followed by the
end-of-loop rounding (`billingEngine.js` lines 474-486 / 692-704). -/
def finalize (rs : List MeterBill) : BatchOut :=
  let acc := rs.foldl accumulate (TotalsByType.zero, Tot.zero)
  ⟨rs, ⟨acc.1.electric.round2, acc.1.water.round2, acc.1.lpg.round2⟩, acc.2.round2⟩

/-- The per-meter loop of `computeBillingForTenant`
(`billingEngine.js` lines 453-472): no `try`/`catch`, so the first
per-meter failure aborts the whole batch. -/
def tenantMeterLoop (db : Db) (endDate : Ymd) (penaltyRatePct : ℚ)
    (restrict : Option (List String)) (now : String) :
    List MeterRow → Except BErr (List MeterBill)
  | [] => .ok []
  | m :: ms =>
    match computeBillingForMeter db m.meter_id endDate penaltyRatePct restrict now with
    | .error e => .error e
    | .ok r =>
      match tenantMeterLoop db endDate penaltyRatePct restrict now ms with
      | .error e => .error e
      | .ok rs => .ok (r :: rs)

/-- The per-meter loop of `computeBillingForBuilding`
(`billingEngine.js` lines 661-690): a failure whose lower-cased message
is exactly `tenant not found` is skipped with `continue`; every other
failure is re-thrown, aborting the batch. -/
def buildingMeterLoop (db : Db) (endDate : Ymd) (penaltyRatePct : ℚ)
    (restrict : Option (List String)) (now : String) :
    List MeterRow → Except BErr (List MeterBill)
  | [] => .ok []
  | m :: ms =>
    match computeBillingForMeter db m.meter_id endDate penaltyRatePct restrict now with
    | .error .tenantNotFound => buildingMeterLoop db endDate penaltyRatePct restrict now ms
    | .error e => .error e
    | .ok r =>
      match buildingMeterLoop db endDate penaltyRatePct restrict now ms with
      | .error e => .error e
      | .ok rs => .ok (r :: rs)

/-- `computeBillingForTenant` of `billingEngine.js` lines 426-488. -/
def computeBillingForTenant (db : Db) (tenantId : String) (endDate : Ymd)
    (penaltyRatePct : ℚ) (restrictToBuildingIds : Option (List String))
    (now : String) : Except BErr BatchOut :=
  let stalls := db.stalls.filter (fun s => s.tenant_id == tenantId)
  if stalls.isEmpty then
    .ok ⟨[], TotalsByType.zero, Tot.zero⟩
  else
    let stallIds := stalls.map (fun s => s.stall_id)
    let meters := db.meters.filter (fun m => stallIds.contains m.stall_id)
    (tenantMeterLoop db endDate penaltyRatePct restrictToBuildingIds now meters).map finalize

/-- `computeBillingForBuilding` of `billingEngine.js` lines 628-707:
the scope restriction is checked once up front against the requested
building id (as a string). -/
def computeBillingForBuilding (db : Db) (buildingId : String) (endDate : Ymd)
    (penaltyRatePct : ℚ) (restrictToBuildingIds : Option (List String))
    (now : String) : Except BErr BatchOut :=
  let bid := buildingId
  if restrictViolated restrictToBuildingIds bid then .error .forbidden
  else
    let stalls := db.stalls.filter (fun s => s.building_id == bid)
    let stallIds := stalls.map (fun s => s.stall_id)
    let meters := db.meters.filter (fun m => stallIds.contains m.stall_id)
    (buildingMeterLoop db endDate penaltyRatePct restrictToBuildingIds now meters).map finalize

end BillingEngine

namespace RocUtils

/-- One constructor per `throw` site of `computeROCForMeter`, named
after the thrown message. -/
inductive RocErr where
  | meterNotFound
  | stallNotFound
  | buildingNotFound
  | invalidRange
  | insufficientReadings
  | unsupportedMeterType
deriving DecidableEq

/-- The result object of `computeROCForMeter`
(`rocUtils.js` lines 183-216); legacy mirror fields
(`prev_index`, `current_consumption`, ...) duplicate the ones kept here. -/
structure RocOut where
  meter_id : String
  stall_id : String
  tenant_id : String
  building_id : String
  meter_type : String
  current : Span
  previous : Span
  anchor : Span
  anchor_index : ℚ
  previous_index : ℚ
  current_index : ℚ
  anchor_to_previous : ℚ
  previous_to_current : ℚ
  rate_of_change : Option ℤ
deriving DecidableEq

/-- `computeROCForMeter` of `rocUtils.js` lines 122-217.  `startDate`
and `endDate` are parsed valid dates; `ensureValidRange` additionally
rejects `end < start` (`invalidRange`).  The three maxima are checked
together, as the single `Insufficient readings` throw of the source. -/
def computeROCForMeter (db : Db) (meterId : String) (startDate endDate : Ymd) :
    Except RocErr RocOut :=
  match db.meters.find? (fun m => m.meter_id == meterId) with
  | none => .error .meterNotFound
  | some meter =>
    match db.stalls.find? (fun s => s.stall_id == meter.stall_id) with
    | none => .error .stallNotFound
    | some stall =>
      match db.buildings.find? (fun b => b.building_id == stall.building_id) with
      | none => .error .buildingNotFound
      | some building =>
        if endDate.key < startDate.key then .error .invalidRange
        else
          let current : Span := ⟨startDate, endDate⟩
          let previous := monthSpanFor endDate 1
          let anchor := monthSpanFor endDate 2
          match BillingEngine.getMaxReadingInPeriod db meterId current.start current.stop,
            BillingEngine.getMaxReadingInPeriod db meterId previous.start previous.stop,
            BillingEngine.getMaxReadingInPeriod db meterId anchor.start anchor.stop with
          | some currMax, some prevMax, some anchorMax =>
            match computeUnits meter.meter_type meter.meter_mult building
              anchorMax.reading_value prevMax.reading_value with
            | none => .error .unsupportedMeterType
            | some a2p =>
              match computeUnits meter.meter_type meter.meter_mult building
                prevMax.reading_value currMax.reading_value with
              | none => .error .unsupportedMeterType
              | some p2c =>
                .ok
                  { meter_id := meter.meter_id,
                    stall_id := stall.stall_id,
                    tenant_id := stall.tenant_id,
                    building_id := stall.building_id,
                    meter_type := lowerStr meter.meter_type,
                    current := current,
                    previous := previous,
                    anchor := anchor,
                    anchor_index := roundTo 2 anchorMax.reading_value,
                    previous_index := roundTo 2 prevMax.reading_value,
                    current_index := roundTo 2 currMax.reading_value,
                    anchor_to_previous := a2p,
                    previous_to_current := p2c,
                    rate_of_change := rocOf a2p p2c }
          | _, _, _ => .error .insufficientReadings

end RocUtils

/-! ## Claim theorems -/

/-- Branch fact used by the floor analysis: the rounded floor value is a
lower bound of the rounded branch result whenever the raw delta is
non-positive or at least the floor. -/
theorem roundTo_floor_branch {raw minv : ℚ} (h : raw ≤ 0 ∨ minv ≤ raw) :
    roundTo 2 minv ≤ roundTo 2 (if 0 < raw then raw else minv) := by
  rcases lt_or_le 0 raw with hpos | hnp
  · rw [if_pos hpos]
    rcases h with h | h
    · exact absurd hpos (not_lt.mpr h)
    · exact roundTo_mono 2 h
  · rw [if_neg (not_lt.mpr hnp)]

/-- C1 (amended): `applyTaxes` applies the cascade in the order
`vat = base * vatFraction`, `wt = vat * wtFraction` (from VAT, never
from base), `penalty = base * penaltyFraction` when eligible else 0,
and rounds each of vat, wt and penalty to 2 decimals independently for
output; but the total is `round2(base + vat + penalty - wt)` computed
from the unrounded intermediates, not a sum of the rounded components. -/
theorem c1_tax_cascade_order :
    ∀ (base vatRate wtRate : ℚ) (forPenalty : Bool) (penaltyRate : ℚ),
      BillingEngine.applyTaxes base vatRate wtRate forPenalty penaltyRate =
        { vat := roundTo 2 (base * vatRate),
          wt := roundTo 2 (base * vatRate * wtRate),
          penalty := roundTo 2 (if forPenalty then base * penaltyRate else 0),
          total := roundTo 2 (base + base * vatRate +
            (if forPenalty then base * penaltyRate else 0) - base * vatRate * wtRate) } := by
  intro base vatRate wtRate forPenalty penaltyRate
  rfl

/-- C1 counterexample: at base 1, vatFraction 0.124, wtFraction 0,
penalty-eligible with fraction 0.124, the code's total is
`round2(1.248) = 1.25`, while summing the independently rounded
components as the claim states gives `1 + 0.12 + 0.12 - 0 = 1.24`. -/
theorem c1_rounded_sum_cex :
    (BillingEngine.applyTaxes 1 (124/1000) 0 true (124/1000)).total ≠
      1 + (BillingEngine.applyTaxes 1 (124/1000) 0 true (124/1000)).vat
        + (BillingEngine.applyTaxes 1 (124/1000) 0 true (124/1000)).penalty
        - (BillingEngine.applyTaxes 1 (124/1000) 0 true (124/1000)).wt := by decide

/-- C2 counterexample: an electric meter whose building floor is 3,
with previous index 0, current index 1 and multiplier 1, yields a
positive raw delta of 1, so the computed consumption is 1 — strictly
below the type minimum 3; the same inputs refute the floor invariant
for the analytics-path calculator as well. -/
theorem c2_floor_invariant_cex :
    BillingEngine.computeUnitsOnly "electric" 1 ⟨"B", 3, 0, 0, 0, 0, 0⟩ 0 1 = some 1
    ∧ BillingEngine.getMinConsumption "electric" ⟨"B", 3, 0, 0, 0, 0, 0⟩ = some 3
    ∧ RocUtils.computeUnits "electric" 1 ⟨"B", 3, 0, 0, 0, 0, 0⟩ 0 1 = some 1
    ∧ ¬ ((3 : ℚ) ≤ 1) := by decide

/-- C2 (amended): the floor bound `consumption ≥ round2(typeMinimum)`
holds whenever the raw delta is non-positive (the floor branch) or
already at least the minimum; it is not unconditional — a positive raw
delta below the minimum is billed as-is and can fall short of the
floor, as the counterexample shows. -/
theorem c2_floor_amended :
    ∀ (t : String) (b : BuildingRow) (mult prev curr c minv : ℚ),
      BillingEngine.computeUnitsOnly t mult b prev curr = some c →
      BillingEngine.getMinConsumption t b = some minv →
      ((curr - prev) * (if mult = 0 then 1 else mult) ≤ 0
        ∨ minv ≤ (curr - prev) * (if mult = 0 then 1 else mult)) →
      roundTo 2 minv ≤ c := by
  intro t b mult prev curr c minv h1 h2 h3
  simp only [BillingEngine.computeUnitsOnly, BillingEngine.getMinConsumption,
    BillingEngine.round] at h1 h2
  by_cases hE : lowerStr t = "electric"
  · rw [if_pos hE] at h1 h2
    obtain rfl := Option.some.inj h2
    obtain rfl := Option.some.inj h1
    exact roundTo_floor_branch h3
  · rw [if_neg hE] at h1 h2
    by_cases hW : lowerStr t = "water"
    · rw [if_pos hW] at h1 h2
      obtain rfl := Option.some.inj h2
      obtain rfl := Option.some.inj h1
      exact roundTo_floor_branch h3
    · rw [if_neg hW] at h1 h2
      by_cases hL : lowerStr t = "lpg"
      · rw [if_pos hL] at h1 h2
        obtain rfl := Option.some.inj h2
        obtain rfl := Option.some.inj h1
        exact roundTo_floor_branch h3
      · rw [if_neg hL] at h1
        cases h1

/-- Witness for the amended C2 bound at a concrete stagnant water
meter: floor 2, indices 5 → 5, so consumption is the rounded floor. -/
theorem c2_floor_amended_witness :
    BillingEngine.computeUnitsOnly "water" 1 ⟨"B", 0, 2, 0, 0, 0, 0⟩ 5 5 = some 2
    ∧ roundTo 2 2 ≤ (2 : ℚ) :=
  ⟨by decide,
   c2_floor_amended "water" ⟨"B", 0, 2, 0, 0, 0, 0⟩ 1 5 5 2 2 (by decide) (by decide)
     (Or.inl (by norm_num))⟩

/-- C5: the percentage normaliser divides by 100 exactly on inputs
`≥ 1` and is the identity below 1; in particular
`normalizePct 12 = 0.12`, `normalizePct 0.12 = 0.12` and, at the
boundary, `normalizePct 1 = 0.01`. -/
theorem c5_normalizePct :
    (∀ v : ℚ, 1 ≤ v → BillingEngine.normalizePct v = v / 100)
    ∧ (∀ v : ℚ, v < 1 → BillingEngine.normalizePct v = v)
    ∧ BillingEngine.normalizePct 12 = 12 / 100
    ∧ BillingEngine.normalizePct (12 / 100) = 12 / 100
    ∧ BillingEngine.normalizePct 1 = 1 / 100 := by
  refine ⟨fun v hv => ?_, fun v hv => ?_, by decide, by decide, by decide⟩
  · simp only [BillingEngine.normalizePct, if_pos hv]
  · simp only [BillingEngine.normalizePct, if_neg (not_le.mpr hv)]

/-- Witness for C5 at inputs on both sides of the boundary. -/
theorem c5_normalizePct_witness :
    BillingEngine.normalizePct 50 = 50 / 100
    ∧ BillingEngine.normalizePct (1 / 2) = 1 / 2 :=
  ⟨c5_normalizePct.1 50 (by norm_num), c5_normalizePct.2.1 (1 / 2) (by norm_num)⟩

/-- C9: the billing-path and analytics-path consumption calculators
agree on electric and water meters for all inputs, and agree on LPG
meters with a positive raw delta; when the LPG raw delta is not
positive they disagree, the billing path returning the fixed floor 1
and the analytics path returning 0. -/
theorem c9_units_divergence :
    ∀ (b : BuildingRow) (mult prev curr : ℚ),
      BillingEngine.computeUnitsOnly "electric" mult b prev curr
        = RocUtils.computeUnits "electric" mult b prev curr
      ∧ BillingEngine.computeUnitsOnly "water" mult b prev curr
        = RocUtils.computeUnits "water" mult b prev curr
      ∧ (0 < (curr - prev) * (if mult = 0 then 1 else mult) →
          BillingEngine.computeUnitsOnly "lpg" mult b prev curr
            = RocUtils.computeUnits "lpg" mult b prev curr)
      ∧ ((curr - prev) * (if mult = 0 then 1 else mult) ≤ 0 →
          BillingEngine.computeUnitsOnly "lpg" mult b prev curr = some 1
          ∧ RocUtils.computeUnits "lpg" mult b prev curr = some 0) := by
  intro b mult prev curr
  have hE : lowerStr "electric" = "electric" := by decide
  have hW : lowerStr "water" = "water" := by decide
  have hL : lowerStr "lpg" = "lpg" := by decide
  have hWE : (("water" : String) = "electric") = False := eq_false (by decide)
  have hLE : (("lpg" : String) = "electric") = False := eq_false (by decide)
  have hLW : (("lpg" : String) = "water") = False := eq_false (by decide)
  refine ⟨?_, ?_, fun hpos => ?_, fun hnp => ?_⟩
  · simp only [BillingEngine.computeUnitsOnly, RocUtils.computeUnits, hE,
      BillingEngine.round, RocUtils.round, eq_self_iff_true, if_true]
  · simp only [BillingEngine.computeUnitsOnly, RocUtils.computeUnits, hW,
      BillingEngine.round, RocUtils.round, hWE, if_false, eq_self_iff_true, if_true]
  · simp only [BillingEngine.computeUnitsOnly, RocUtils.computeUnits, hL,
      BillingEngine.round, RocUtils.round, hLE, hLW, if_false, eq_self_iff_true, if_true]
    rw [if_pos hpos, if_pos hpos]
  · constructor
    · simp only [BillingEngine.computeUnitsOnly, hL, BillingEngine.round, hLE, hLW,
        if_false, eq_self_iff_true, if_true]
      rw [if_neg (not_lt.mpr hnp)]
      decide
    · simp only [RocUtils.computeUnits, hL, RocUtils.round, hLE, hLW,
        if_false, eq_self_iff_true, if_true]
      rw [if_neg (not_lt.mpr hnp)]
      decide

/-- Witness for the C9 divergence on a stagnant LPG meter. -/
theorem c9_units_divergence_witness :
    BillingEngine.computeUnitsOnly "lpg" 1 ⟨"B", 0, 0, 0, 0, 0, 0⟩ 5 5 = some 1
    ∧ RocUtils.computeUnits "lpg" 1 ⟨"B", 0, 0, 0, 0, 0, 0⟩ 5 5 = some 0 :=
  (c9_units_divergence ⟨"B", 0, 0, 0, 0, 0, 0⟩ 1 5 5).2.2.2 (by norm_num)

/-- The billing-path consumption calculator only returns 2-decimal
rounded values, so rounding its output again is the identity. -/
theorem computeUnitsOnly_round_fixed {t : String} {mult : ℚ} {b : BuildingRow} {p q c : ℚ}
    (h : BillingEngine.computeUnitsOnly t mult b p q = some c) : roundTo 2 c = c := by
  simp only [BillingEngine.computeUnitsOnly, BillingEngine.round] at h
  by_cases hE : lowerStr t = "electric"
  · rw [if_pos hE] at h
    obtain rfl := Option.some.inj h
    exact roundTo_idem 2 _
  · rw [if_neg hE] at h
    by_cases hW : lowerStr t = "water"
    · rw [if_pos hW] at h
      obtain rfl := Option.some.inj h
      exact roundTo_idem 2 _
    · rw [if_neg hW] at h
      by_cases hL : lowerStr t = "lpg"
      · rw [if_pos hL] at h
        obtain rfl := Option.some.inj h
        exact roundTo_idem 2 _
      · rw [if_neg hL] at h
        cases h

/-- C4: whenever the per-meter rate-of-change computation succeeds, its
`rate_of_change` is `ceil((previousToCurrent - anchorToPrevious) /
anchorToPrevious * 100)` when `anchorToPrevious > 0` (a ceiling, not a
nearest rounding), and `null` when `anchorToPrevious = 0` — never an
undefined value or a failure; the grouped totals of the tenant/building
analyzer obey the same rule on their rounded sums. -/
theorem c4_roc_null_safety :
    ∀ (db : Db) (mid : String) (s e : Ymd) (out : RocUtils.RocOut),
      RocUtils.computeROCForMeter db mid s e = .ok out →
      (0 < out.anchor_to_previous →
        out.rate_of_change = some ⌈(out.previous_to_current - out.anchor_to_previous)
          / out.anchor_to_previous * 100⌉)
      ∧ (out.anchor_to_previous = 0 → out.rate_of_change = none)
      ∧ (∀ a2pSum p2cSum : ℚ,
          (0 < roundTo 2 a2pSum →
            (RocUtils.finalizeGroupTotals a2pSum p2cSum).rate_of_change
              = some ⌈(roundTo 2 p2cSum - roundTo 2 a2pSum) / roundTo 2 a2pSum * 100⌉)
          ∧ (roundTo 2 a2pSum = 0 →
            (RocUtils.finalizeGroupTotals a2pSum p2cSum).rate_of_change = none)) := by
  intro db mid s e out h
  have hroc : out.rate_of_change
      = RocUtils.rocOf out.anchor_to_previous out.previous_to_current := by
    simp only [RocUtils.computeROCForMeter] at h
    repeat' split at h
    all_goals cases h
    all_goals rfl
  refine ⟨fun hpos => ?_, fun hz => ?_, fun a2pSum p2cSum => ⟨fun hpos => ?_, fun hz => ?_⟩⟩
  · rw [hroc]
    simp only [RocUtils.rocOf]
    rw [if_pos hpos]
  · have hn : ¬ (0 < out.anchor_to_previous) := by rw [hz]; exact lt_irrefl 0
    rw [hroc]
    simp only [RocUtils.rocOf]
    rw [if_neg hn]
  · simp only [RocUtils.finalizeGroupTotals, RocUtils.rocOf]
    rw [if_pos hpos]
  · have hn : ¬ (0 < roundTo 2 a2pSum) := by rw [hz]; exact lt_irrefl 0
    simp only [RocUtils.finalizeGroupTotals, RocUtils.rocOf]
    rw [if_neg hn]

/-- Concrete database for the C4 witness: one electric meter with an
anchor-month reading 0, a previous-month reading 100 and a
current-window reading 220, so the two consumptions are 100 and 120. -/
def dbRoc : Db :=
  { meters := [⟨"m1", "SN1", "electric", 1, "s1"⟩],
    stalls := [⟨"s1", "B1", "t1"⟩],
    buildings := [⟨"B1", 2, 0, 0, 0, 0, 0⟩],
    tenants := [],
    vats := [], wts := [],
    readings := [⟨"m1", ⟨2024, 1, 20⟩, 0⟩, ⟨"m1", ⟨2024, 2, 15⟩, 100⟩,
      ⟨"m1", ⟨2024, 3, 10⟩, 220⟩] }

/-- The successful result `computeROCForMeter` produces on `dbRoc`. -/
def rocOutW : RocUtils.RocOut :=
  { meter_id := "m1", stall_id := "s1", tenant_id := "t1", building_id := "B1",
    meter_type := "electric",
    current := ⟨⟨2024, 3, 1⟩, ⟨2024, 3, 15⟩⟩,
    previous := ⟨⟨2024, 2, 1⟩, ⟨2024, 2, 29⟩⟩,
    anchor := ⟨⟨2024, 1, 1⟩, ⟨2024, 1, 31⟩⟩,
    anchor_index := 0, previous_index := 100, current_index := 220,
    anchor_to_previous := 100, previous_to_current := 120,
    rate_of_change := some 20 }

/-- Witness for C4: positive baseline gives the ceiling formula, zero
rounded baseline gives `null` at group level. -/
theorem c4_roc_null_safety_witness :
    RocUtils.computeROCForMeter dbRoc "m1" ⟨2024, 3, 1⟩ ⟨2024, 3, 15⟩ = .ok rocOutW
    ∧ rocOutW.rate_of_change
      = some ⌈(rocOutW.previous_to_current - rocOutW.anchor_to_previous)
          / rocOutW.anchor_to_previous * 100⌉
    ∧ (RocUtils.finalizeGroupTotals 0 5).rate_of_change = none :=
  ⟨by decide,
   (c4_roc_null_safety dbRoc "m1" ⟨2024, 3, 1⟩ ⟨2024, 3, 15⟩ rocOutW (by decide)).1
     (by decide),
   ((c4_roc_null_safety dbRoc "m1" ⟨2024, 3, 1⟩ ⟨2024, 3, 15⟩ rocOutW (by decide)).2.2 0 5).2
     (by decide)⟩

/-- C8: for each utility type, the standard mode's system rate equals
the utility rate (markup 0 in the exposed triple) and the markup mode's
system rate equals utility rate plus the building markup; both modes
expose the `{utility_rate, markup_rate, system_rate}` triple, the two
triples coincide when the markup is zero, and in both modes the
monetary base is `round2(consumption * system_rate)`. -/
theorem c8_system_rate :
    ∀ (t : String), (t = "electric" ∨ t = "water" ∨ t = "lpg") →
    ∀ (mult : ℚ) (b : BuildingRow) (tk : BillingEngine.TaxKnobs) (prev curr : ℚ)
      (fp : Bool) (pr : ℚ),
    ∃ u, BillingEngine.getUtilityRate t b = some u
      ∧ (∀ r, BillingEngine.computeChargesByType t mult b tk prev curr fp pr = some r →
          r.rates = ⟨u, 0, u⟩
          ∧ r.base = roundTo 2 (r.consumption * r.rates.system_rate))
      ∧ (∀ r, BillingEngine.computeChargesByTypeWithMarkup t mult b tk prev curr fp pr
            = some r →
          r.rates = ⟨u, b.markup_rate, u + b.markup_rate⟩
          ∧ r.base = roundTo 2 (r.consumption * r.rates.system_rate))
      ∧ (b.markup_rate = 0 → ∀ r r',
          BillingEngine.computeChargesByType t mult b tk prev curr fp pr = some r →
          BillingEngine.computeChargesByTypeWithMarkup t mult b tk prev curr fp pr = some r' →
          r'.rates = r.rates) := by
  intro t ht mult b tk prev curr fp pr
  have hE : lowerStr "electric" = "electric" := by decide
  have hW : lowerStr "water" = "water" := by decide
  have hL : lowerStr "lpg" = "lpg" := by decide
  rcases ht with rfl | rfl | rfl
  · have hu : BillingEngine.getUtilityRate "electric" b = some b.erate_perKwH := by
      simp only [BillingEngine.getUtilityRate, hE, eq_self_iff_true, if_true]
    have hstd : ∀ r,
        BillingEngine.computeChargesByType "electric" mult b tk prev curr fp pr = some r →
        r.rates = ⟨b.erate_perKwH, 0, b.erate_perKwH⟩
        ∧ r.base = roundTo 2 (r.consumption * r.rates.system_rate) := by
      intro r hr
      simp only [BillingEngine.computeChargesByType, hE, hu] at hr
      rcases hcu : BillingEngine.computeUnitsOnly "electric" mult b prev curr with _ | c
      · rw [hcu] at hr
        cases hr
      · rw [hcu] at hr
        obtain rfl := Option.some.inj hr
        refine ⟨rfl, ?_⟩
        show BillingEngine.round (c * b.erate_perKwH)
          = roundTo 2 (BillingEngine.round c * b.erate_perKwH)
        simp only [BillingEngine.round]
        rw [computeUnitsOnly_round_fixed hcu]
    have hmk : ∀ r,
        BillingEngine.computeChargesByTypeWithMarkup "electric" mult b tk prev curr fp pr
          = some r →
        r.rates = ⟨b.erate_perKwH, b.markup_rate, b.erate_perKwH + b.markup_rate⟩
        ∧ r.base = roundTo 2 (r.consumption * r.rates.system_rate) := by
      intro r hr
      simp only [BillingEngine.computeChargesByTypeWithMarkup, hE, hu] at hr
      rcases hcu : BillingEngine.computeUnitsOnly "electric" mult b prev curr with _ | c
      · rw [hcu] at hr
        cases hr
      · rw [hcu] at hr
        obtain rfl := Option.some.inj hr
        refine ⟨rfl, ?_⟩
        show BillingEngine.round (c * (b.erate_perKwH + b.markup_rate))
          = roundTo 2 (BillingEngine.round c * (b.erate_perKwH + b.markup_rate))
        simp only [BillingEngine.round]
        rw [computeUnitsOnly_round_fixed hcu]
    refine ⟨b.erate_perKwH, hu, hstd, hmk, ?_⟩
    intro hz r r' h h'
    rw [(hmk r' h').1, (hstd r h).1, hz, add_zero]
  · have hu : BillingEngine.getUtilityRate "water" b = some b.wrate_perCbM := by
      have hWE : (("water" : String) = "electric") = False := eq_false (by decide)
      simp only [BillingEngine.getUtilityRate, hW, hWE, if_false, eq_self_iff_true, if_true]
    have hstd : ∀ r,
        BillingEngine.computeChargesByType "water" mult b tk prev curr fp pr = some r →
        r.rates = ⟨b.wrate_perCbM, 0, b.wrate_perCbM⟩
        ∧ r.base = roundTo 2 (r.consumption * r.rates.system_rate) := by
      intro r hr
      simp only [BillingEngine.computeChargesByType, hW, hu] at hr
      rcases hcu : BillingEngine.computeUnitsOnly "water" mult b prev curr with _ | c
      · rw [hcu] at hr
        cases hr
      · rw [hcu] at hr
        obtain rfl := Option.some.inj hr
        refine ⟨rfl, ?_⟩
        show BillingEngine.round (c * b.wrate_perCbM)
          = roundTo 2 (BillingEngine.round c * b.wrate_perCbM)
        simp only [BillingEngine.round]
        rw [computeUnitsOnly_round_fixed hcu]
    have hmk : ∀ r,
        BillingEngine.computeChargesByTypeWithMarkup "water" mult b tk prev curr fp pr
          = some r →
        r.rates = ⟨b.wrate_perCbM, b.markup_rate, b.wrate_perCbM + b.markup_rate⟩
        ∧ r.base = roundTo 2 (r.consumption * r.rates.system_rate) := by
      intro r hr
      simp only [BillingEngine.computeChargesByTypeWithMarkup, hW, hu] at hr
      rcases hcu : BillingEngine.computeUnitsOnly "water" mult b prev curr with _ | c
      · rw [hcu] at hr
        cases hr
      · rw [hcu] at hr
        obtain rfl := Option.some.inj hr
        refine ⟨rfl, ?_⟩
        show BillingEngine.round (c * (b.wrate_perCbM + b.markup_rate))
          = roundTo 2 (BillingEngine.round c * (b.wrate_perCbM + b.markup_rate))
        simp only [BillingEngine.round]
        rw [computeUnitsOnly_round_fixed hcu]
    refine ⟨b.wrate_perCbM, hu, hstd, hmk, ?_⟩
    intro hz r r' h h'
    rw [(hmk r' h').1, (hstd r h).1, hz, add_zero]
  · have hu : BillingEngine.getUtilityRate "lpg" b = some b.lrate_perKg := by
      have hLE : (("lpg" : String) = "electric") = False := eq_false (by decide)
      have hLW : (("lpg" : String) = "water") = False := eq_false (by decide)
      simp only [BillingEngine.getUtilityRate, hL, hLE, hLW, if_false,
        eq_self_iff_true, if_true]
    have hstd : ∀ r,
        BillingEngine.computeChargesByType "lpg" mult b tk prev curr fp pr = some r →
        r.rates = ⟨b.lrate_perKg, 0, b.lrate_perKg⟩
        ∧ r.base = roundTo 2 (r.consumption * r.rates.system_rate) := by
      intro r hr
      simp only [BillingEngine.computeChargesByType, hL, hu] at hr
      rcases hcu : BillingEngine.computeUnitsOnly "lpg" mult b prev curr with _ | c
      · rw [hcu] at hr
        cases hr
      · rw [hcu] at hr
        obtain rfl := Option.some.inj hr
        refine ⟨rfl, ?_⟩
        show BillingEngine.round (c * b.lrate_perKg)
          = roundTo 2 (BillingEngine.round c * b.lrate_perKg)
        simp only [BillingEngine.round]
        rw [computeUnitsOnly_round_fixed hcu]
    have hmk : ∀ r,
        BillingEngine.computeChargesByTypeWithMarkup "lpg" mult b tk prev curr fp pr
          = some r →
        r.rates = ⟨b.lrate_perKg, b.markup_rate, b.lrate_perKg + b.markup_rate⟩
        ∧ r.base = roundTo 2 (r.consumption * r.rates.system_rate) := by
      intro r hr
      simp only [BillingEngine.computeChargesByTypeWithMarkup, hL, hu] at hr
      rcases hcu : BillingEngine.computeUnitsOnly "lpg" mult b prev curr with _ | c
      · rw [hcu] at hr
        cases hr
      · rw [hcu] at hr
        obtain rfl := Option.some.inj hr
        refine ⟨rfl, ?_⟩
        show BillingEngine.round (c * (b.lrate_perKg + b.markup_rate))
          = roundTo 2 (BillingEngine.round c * (b.lrate_perKg + b.markup_rate))
        simp only [BillingEngine.round]
        rw [computeUnitsOnly_round_fixed hcu]
    refine ⟨b.lrate_perKg, hu, hstd, hmk, ?_⟩
    intro hz r r' h h'
    rw [(hmk r' h').1, (hstd r h).1, hz, add_zero]

/-- Witness for C8 on a concrete electric building with rate 10 and
markup 2: the standard triple is (10, 0, 10), the markup triple is
(10, 2, 12), and each base is `round2(consumption * system_rate)`. -/
theorem c8_system_rate_witness :
    BillingEngine.computeChargesByType "electric" 1 ⟨"B", 0, 0, 10, 0, 0, 2⟩
        ⟨⟨0, 0, 0⟩, ⟨0, 0, 0⟩⟩ 0 5 false 0
      = some ⟨5, 50, 0, 0, 0, 50, ⟨10, 0, 10⟩⟩
    ∧ (⟨5, 50, 0, 0, 0, 50, ⟨10, 0, 10⟩⟩ : BillingEngine.ChargeOut).rates = ⟨10, 0, 10⟩
    ∧ (⟨5, 50, 0, 0, 0, 50, ⟨10, 0, 10⟩⟩ : BillingEngine.ChargeOut).base
      = roundTo 2 ((⟨5, 50, 0, 0, 0, 50, ⟨10, 0, 10⟩⟩ : BillingEngine.ChargeOut).consumption
          * (⟨5, 50, 0, 0, 0, 50, ⟨10, 0, 10⟩⟩ : BillingEngine.ChargeOut).rates.system_rate) := by
  obtain ⟨u, hu, hstd, hmk, hzero⟩ :=
    c8_system_rate "electric" (Or.inl rfl) 1 ⟨"B", 0, 0, 10, 0, 0, 2⟩
      ⟨⟨0, 0, 0⟩, ⟨0, 0, 0⟩⟩ 0 5 false 0
  have h := hstd ⟨5, 50, 0, 0, 0, 50, ⟨10, 0, 10⟩⟩ (by decide)
  exact ⟨by decide, by decide, h.2⟩

/-- Year component of "one calendar month earlier", following the
spec's wording of the calendar mode. -/
def monthBackY (y : ℤ) (m : ℕ) : ℤ := if m = 1 then y - 1 else y

/-- Month component of "one calendar month earlier". -/
def monthBackM (m : ℕ) : ℕ := if m = 1 then 12 else m - 1

/-- The span of one entire calendar month. -/
def calMonthSpan (y : ℤ) (m : ℕ) : Span := ⟨⟨y, m, 1⟩, ⟨y, m, daysInMonth y m⟩⟩

/-- The spec's calendar-mode description: `current` runs from the first
day of the end date's month to the end date; `previous` is the entire
calendar month preceding it; `anchor` the entire month before that. -/
def specCalendarPeriods (e : Ymd) : BillingEngine.Periods :=
  let py := monthBackY e.y e.m
  let pm := monthBackM e.m
  let ay := monthBackY py pm
  let am := monthBackM pm
  { curr := ⟨⟨e.y, e.m, 1⟩, e⟩,
    prev := calMonthSpan py pm,
    preprev := calMonthSpan ay am }

/-- C7: on every valid end date, the billing-path period resolver
matches the spec's calendar-mode description — `current` from the first
of the end month to the end date, `previous` and `anchor` the two whole
preceding calendar months — and the analytics-path `monthSpanFor`
(whose month index is normalised by `Date.UTC` floor division,
including January/February year rollover) resolves the same two
preceding months. -/
theorem c7_calendar_periods :
    ∀ (e : Ymd), 1 ≤ e.m → e.m ≤ 12 →
      BillingEngine.getPeriodStrings e = specCalendarPeriods e
      ∧ RocUtils.monthSpanFor e 1 = (specCalendarPeriods e).prev
      ∧ RocUtils.monthSpanFor e 2 = (specCalendarPeriods e).preprev := by
  intro e h1 h2
  obtain ⟨y, m, d⟩ := e
  simp only at h1 h2
  refine ⟨rfl, ?_, ?_⟩
  · have hA : y + ((m : ℤ) - 1 - 1) / 12 = monthBackY y m := by
      by_cases hm1 : m = 1
      · subst hm1
        simp [monthBackY]
        omega
      · simp [monthBackY, hm1]
        omega
    have hB : (((m : ℤ) - 1 - 1) % 12 + 1).toNat = monthBackM m := by
      by_cases hm1 : m = 1
      · subst hm1
        simp [monthBackM]
      · simp [monthBackM, hm1]
        omega
    simp only [RocUtils.monthSpanFor, specCalendarPeriods]
    rw [hA, hB]
    rfl
  · have hA : y + ((m : ℤ) - 1 - 2) / 12 = monthBackY (monthBackY y m) (monthBackM m) := by
      by_cases hm1 : m = 1
      · subst hm1
        simp [monthBackY, monthBackM]
        omega
      · by_cases hm2 : m = 2
        · subst hm2
          simp [monthBackY, monthBackM]
          omega
        · have hmm : m - 1 ≠ 1 := by omega
          simp [monthBackY, monthBackM, hm1, hmm]
          omega
    have hB : (((m : ℤ) - 1 - 2) % 12 + 1).toNat = monthBackM (monthBackM m) := by
      by_cases hm1 : m = 1
      · subst hm1
        simp [monthBackM]
      · by_cases hm2 : m = 2
        · subst hm2
          simp [monthBackM]
        · have hmm : m - 1 ≠ 1 := by omega
          simp [monthBackM, hm1, hmm]
          omega
    simp only [RocUtils.monthSpanFor, specCalendarPeriods]
    rw [hA, hB]
    rfl

/-- Witness for C7 at a January end date, checking the year rollover:
previous is December of the prior year, anchor is November. -/
theorem c7_calendar_periods_witness :
    BillingEngine.getPeriodStrings ⟨2024, 1, 15⟩ = specCalendarPeriods ⟨2024, 1, 15⟩
    ∧ BillingEngine.getPeriodStrings ⟨2024, 1, 15⟩ =
        ⟨⟨⟨2024, 1, 1⟩, ⟨2024, 1, 15⟩⟩,
         ⟨⟨2023, 12, 1⟩, ⟨2023, 12, 31⟩⟩,
         ⟨⟨2023, 11, 1⟩, ⟨2023, 11, 30⟩⟩⟩
    ∧ RocUtils.monthSpanFor ⟨2024, 2, 10⟩ 2 = ⟨⟨2023, 12, 1⟩, ⟨2023, 12, 31⟩⟩ :=
  ⟨(c7_calendar_periods ⟨2024, 1, 15⟩ (by decide) (by decide)).1, by decide, by decide⟩

/-- Rows shared by the C3 batch-policy scenario: `m1` bills normally,
`m2` sits on a stall whose tenant is missing, `m3` has no readings. -/
def mRow1 : MeterRow := ⟨"m1", "S1", "electric", 1, "s1"⟩

/-- See `mRow1`. -/
def mRow2 : MeterRow := ⟨"m2", "S2", "electric", 1, "s2"⟩

/-- See `mRow1`. -/
def mRow3 : MeterRow := ⟨"m3", "S3", "electric", 1, "s3"⟩

/-- Database for the C3 scenario. -/
def dbC3 : Db :=
  { meters := [mRow1, mRow2, mRow3],
    stalls := [⟨"s1", "B1", "t1"⟩, ⟨"s2", "B1", "tX"⟩, ⟨"s3", "B1", "t1"⟩],
    buildings := [⟨"B1", 1, 0, 10, 0, 0, 0⟩],
    tenants := [⟨"t1", "T1", none, none, false⟩],
    vats := [], wts := [],
    readings := [⟨"m1", ⟨2024, 2, 10⟩, 100⟩, ⟨"m1", ⟨2024, 3, 10⟩, 150⟩] }

/-- A throwaway result value, used only to instantiate unused binders. -/
def mbJunk : BillingEngine.MeterBill :=
  ⟨⟨"", "", "", 0⟩, ⟨"", "", ""⟩, ⟨"", "", none, none, false⟩,
   ⟨none, ⟨⟨0, 0, 0⟩, ⟨0, 0, 0⟩⟩⟩, ⟨0, 0⟩, ⟨0, 0, 0, 0, 0, 0, ⟨0, 0, 0⟩⟩,
   ⟨0, 0, 0, 0, 0, 0⟩, 0, ""⟩

/-- C3 (amended): per-meter failures are never recorded as item-level
errors — no error list exists in the result type.  At tenant scope the
first per-meter failure aborts the whole batch; at building scope a
Tenant-not-found failure is silently skipped (the loop continues with
the remaining meters) while every other failure kind aborts the batch;
successful meters are accumulated in order. -/
theorem c3_batch_failure_policy :
    ∀ (db : Db) (ed : Ymd) (pen : ℚ) (restrict : Option (List String)) (now : String)
      (m : MeterRow) (ms : List MeterRow) (e : BillingEngine.BErr)
      (r : BillingEngine.MeterBill),
      (BillingEngine.computeBillingForMeter db m.meter_id ed pen restrict now = .error e →
        BillingEngine.tenantMeterLoop db ed pen restrict now (m :: ms) = .error e)
      ∧ (BillingEngine.computeBillingForMeter db m.meter_id ed pen restrict now
            = .error .tenantNotFound →
        BillingEngine.buildingMeterLoop db ed pen restrict now (m :: ms)
          = BillingEngine.buildingMeterLoop db ed pen restrict now ms)
      ∧ (BillingEngine.computeBillingForMeter db m.meter_id ed pen restrict now = .error e →
          e ≠ .tenantNotFound →
        BillingEngine.buildingMeterLoop db ed pen restrict now (m :: ms) = .error e)
      ∧ (BillingEngine.computeBillingForMeter db m.meter_id ed pen restrict now = .ok r →
        BillingEngine.buildingMeterLoop db ed pen restrict now (m :: ms)
          = (BillingEngine.buildingMeterLoop db ed pen restrict now ms).map
              (fun rs => r :: rs)) := by
  intro db ed pen restrict now m ms e r
  refine ⟨fun h => ?_, fun h => ?_, fun h hne => ?_, fun h => ?_⟩
  · simp only [BillingEngine.tenantMeterLoop, h]
  · simp only [BillingEngine.buildingMeterLoop, h]
  · cases e
    case tenantNotFound => exact absurd rfl hne
    all_goals simp only [BillingEngine.buildingMeterLoop, h]
  · simp only [BillingEngine.buildingMeterLoop, h]
    rcases hb : BillingEngine.buildingMeterLoop db ed pen restrict now ms with e' | rs
    · simp [Except.map]
    · simp [Except.map]

/-- Witness for the amended C3 policy on `dbC3`: the tenant-not-found
meter `m2` is skipped at building scope, and the no-readings meter `m3`
aborts the tenant-scope loop. -/
theorem c3_batch_failure_policy_witness :
    BillingEngine.buildingMeterLoop dbC3 ⟨2024, 3, 15⟩ 0 none "T" [mRow2, mRow1]
      = BillingEngine.buildingMeterLoop dbC3 ⟨2024, 3, 15⟩ 0 none "T" [mRow1]
    ∧ BillingEngine.tenantMeterLoop dbC3 ⟨2024, 3, 15⟩ 0 none "T" [mRow3]
      = .error .noCurrentReadings :=
  ⟨(c3_batch_failure_policy dbC3 ⟨2024, 3, 15⟩ 0 none "T" mRow2 [mRow1]
      .tenantNotFound mbJunk).2.1 (by decide),
   (c3_batch_failure_policy dbC3 ⟨2024, 3, 15⟩ 0 none "T" mRow3 []
      .noCurrentReadings mbJunk).1 (by decide)⟩

/-- C3 counterexample: on `dbC3` the building-scope aggregation meets a
no-readings failure on `m3` and aborts with that error instead of
returning partial results with an item-level error entry; the
tenant-scope aggregation aborts the same way. -/
theorem c3_item_error_list_cex :
    BillingEngine.computeBillingForBuilding dbC3 "B1" ⟨2024, 3, 15⟩ 0 none "T"
      = .error .noCurrentReadings
    ∧ BillingEngine.computeBillingForTenant dbC3 "t1" ⟨2024, 3, 15⟩ 0 none "T"
      = .error .noCurrentReadings := by decide

/-- The per-meter result with its `generated_at` stamp cleared. -/
def BillingEngine.MeterBill.clearStamp (r : BillingEngine.MeterBill) :
    BillingEngine.MeterBill :=
  { r with generated_at := "" }

/-- C6 (amended): two invocations of `computeBillingForMeter` on the
same database and arguments agree on every field except `generated_at`,
which records the invocation's clock reading; with equal clock readings
the results are byte-identical. -/
theorem c6_idempotence_amended :
    ∀ (db : Db) (mid : String) (ed : Ymd) (pen : ℚ)
      (restrict : Option (List String)) (t₁ t₂ : String),
      (BillingEngine.computeBillingForMeter db mid ed pen restrict t₁).map
          BillingEngine.MeterBill.clearStamp
        = (BillingEngine.computeBillingForMeter db mid ed pen restrict t₂).map
          BillingEngine.MeterBill.clearStamp
      ∧ (t₁ = t₂ →
          BillingEngine.computeBillingForMeter db mid ed pen restrict t₁
            = BillingEngine.computeBillingForMeter db mid ed pen restrict t₂) := by
  intro db mid ed pen restrict t₁ t₂
  constructor
  · simp only [BillingEngine.computeBillingForMeter]
    repeat' split
    all_goals rfl
  · intro h
    rw [h]

/-- Database for the C6 scenario: one fully billable electric meter. -/
def dbC6 : Db :=
  { meters := [⟨"m1", "SN1", "electric", 1, "s1"⟩],
    stalls := [⟨"s1", "B1", "t1"⟩],
    buildings := [⟨"B1", 1, 0, 10, 0, 0, 0⟩],
    tenants := [⟨"t1", "Tenant One", none, none, false⟩],
    vats := [], wts := [],
    readings := [⟨"m1", ⟨2024, 2, 10⟩, 100⟩, ⟨"m1", ⟨2024, 3, 10⟩, 150⟩] }

/-- C6 counterexample: the same database and arguments invoked at two
different clock readings yield results that are not byte-identical —
`generated_at` differs. -/
theorem c6_byte_identical_cex :
    BillingEngine.computeBillingForMeter dbC6 "m1" ⟨2024, 3, 15⟩ 0 none
        "2025-01-01 00:00:00"
      ≠ BillingEngine.computeBillingForMeter dbC6 "m1" ⟨2024, 3, 15⟩ 0 none
        "2025-01-01 00:00:01" := by decide

/-- Witness for the amended C6 statement on `dbC6`. -/
theorem c6_idempotence_amended_witness :
    (BillingEngine.computeBillingForMeter dbC6 "m1" ⟨2024, 3, 15⟩ 0 none "a").map
        BillingEngine.MeterBill.clearStamp
      = (BillingEngine.computeBillingForMeter dbC6 "m1" ⟨2024, 3, 15⟩ 0 none "b").map
        BillingEngine.MeterBill.clearStamp
    ∧ BillingEngine.computeBillingForMeter dbC6 "m1" ⟨2024, 3, 15⟩ 0 none "a"
      = BillingEngine.computeBillingForMeter dbC6 "m1" ⟨2024, 3, 15⟩ 0 none "a" :=
  ⟨(c6_idempotence_amended dbC6 "m1" ⟨2024, 3, 15⟩ 0 none "a" "b").1,
   (c6_idempotence_amended dbC6 "m1" ⟨2024, 3, 15⟩ 0 none "a" "a").2 rfl⟩

/-- The scope-restriction guard fires exactly on a non-empty allow-list
that misses the building id. -/
theorem restrictViolated_some_iff (l : List String) (bid : String) :
    BillingEngine.restrictViolated (some l) bid = true ↔ l ≠ [] ∧ bid ∉ l := by
  simp [BillingEngine.restrictViolated, List.isEmpty_iff, List.elem_iff]

/-- With unique meter ids, looking a listed meter up by its own id
returns that meter. -/
theorem meters_find_self :
    ∀ (ml : List MeterRow), (ml.map (fun x => x.meter_id)).Nodup →
      ∀ m ∈ ml, ml.find? (fun x => x.meter_id == m.meter_id) = some m := by
  intro ml
  induction ml with
  | nil =>
    intro _ m hm
    cases hm
  | cons b bs ih =>
    intro hnd m hm
    simp only [List.map_cons, List.nodup_cons] at hnd
    rcases List.mem_cons.mp hm with rfl | hmem
    · simp [List.find?]
    · have hne : b.meter_id ≠ m.meter_id := by
        intro hkey
        exact hnd.1 (hkey ▸ List.mem_map_of_mem (fun x => x.meter_id) hmem)
      rw [List.find?_cons_of_neg _ (by simp [hne])]
      exact ih hnd.2 m hmem

/-- With unique stall ids, looking a listed stall up by its own id
returns that stall. -/
theorem stalls_find_self :
    ∀ (sl : List StallRow), (sl.map (fun x => x.stall_id)).Nodup →
      ∀ s ∈ sl, sl.find? (fun x => x.stall_id == s.stall_id) = some s := by
  intro sl
  induction sl with
  | nil =>
    intro _ s hs
    cases hs
  | cons b bs ih =>
    intro hnd s hs
    simp only [List.map_cons, List.nodup_cons] at hnd
    rcases List.mem_cons.mp hs with rfl | hmem
    · simp [List.find?]
    · have hne : b.stall_id ≠ s.stall_id := by
        intro hkey
        exact hnd.1 (hkey ▸ List.mem_map_of_mem (fun x => x.stall_id) hmem)
      rw [List.find?_cons_of_neg _ (by simp [hne])]
      exact ih hnd.2 s hmem

/-- For a resolvable meter, the single-meter billing call fails with
Forbidden exactly when the allow-list is non-empty and misses the
stall's building. -/
theorem computeBillingForMeter_forbidden_iff (db : Db) (mid : String) (ed : Ymd) (pen : ℚ)
    (l : List String) (now : String) (meter : MeterRow) (stall : StallRow)
    (hm : db.meters.find? (fun x => x.meter_id == mid) = some meter)
    (hs : db.stalls.find? (fun x => x.stall_id == meter.stall_id) = some stall) :
    BillingEngine.computeBillingForMeter db mid ed pen (some l) now = .error .forbidden
      ↔ l ≠ [] ∧ stall.building_id ∉ l := by
  rw [← restrictViolated_some_iff l stall.building_id]
  constructor
  · intro h
    by_cases hv : BillingEngine.restrictViolated (some l) stall.building_id = true
    · exact hv
    · exfalso
      simp only [BillingEngine.computeBillingForMeter, hm, hs] at h
      rw [if_neg hv] at h
      repeat' split at h
      all_goals simp at h
  · intro hv
    simp only [BillingEngine.computeBillingForMeter, hm, hs]
    rw [if_pos hv]

/-- An empty allow-list and a missing allow-list take the same branch
of the guard, so the single-meter call behaves identically. -/
theorem computeBillingForMeter_restrict_empty (db : Db) (mid : String) (ed : Ymd)
    (pen : ℚ) (now : String) :
    BillingEngine.computeBillingForMeter db mid ed pen (some []) now
      = BillingEngine.computeBillingForMeter db mid ed pen none now := rfl

/-- See `computeBillingForMeter_restrict_empty`, lifted over the
building-scope loop. -/
theorem buildingMeterLoop_restrict_empty (db : Db) (ed : Ymd) (pen : ℚ) (now : String) :
    ∀ ms : List MeterRow,
      BillingEngine.buildingMeterLoop db ed pen (some []) now ms
        = BillingEngine.buildingMeterLoop db ed pen none now ms := by
  intro ms
  induction ms with
  | nil => rfl
  | cons m rest ih =>
    simp only [BillingEngine.buildingMeterLoop, computeBillingForMeter_restrict_empty, ih]

/-- See `computeBillingForMeter_restrict_empty`, at building scope. -/
theorem computeBillingForBuilding_restrict_empty (db : Db) (bid : String) (ed : Ymd)
    (pen : ℚ) (now : String) :
    BillingEngine.computeBillingForBuilding db bid ed pen (some []) now
      = BillingEngine.computeBillingForBuilding db bid ed pen none now := by
  simp only [BillingEngine.computeBillingForBuilding, buildingMeterLoop_restrict_empty]
  rfl

/-- If the requested building passes the guard, no meter of that
building can trip the per-meter guard either (ids being unique), so the
building loop never surfaces Forbidden. -/
theorem buildingMeterLoop_ne_forbidden
    (db : Db) (ed : Ymd) (pen : ℚ) (l : List String) (now : String) (bid : String)
    (hres : ¬ BillingEngine.restrictViolated (some l) bid = true)
    (hndm : (db.meters.map (fun x => x.meter_id)).Nodup)
    (hnds : (db.stalls.map (fun x => x.stall_id)).Nodup) :
    ∀ ms : List MeterRow,
      (∀ m ∈ ms, m ∈ db.meters
        ∧ ∃ s ∈ db.stalls, s.stall_id = m.stall_id ∧ s.building_id = bid) →
      BillingEngine.buildingMeterLoop db ed pen (some l) now ms ≠ .error .forbidden := by
  intro ms
  induction ms with
  | nil =>
    intro _ h
    simp [BillingEngine.buildingMeterLoop] at h
  | cons m rest ih =>
    intro hall h
    obtain ⟨hmem, s, hsmem, hsid, hsbid⟩ := hall m (List.mem_cons_self m rest)
    have hfm : db.meters.find? (fun x => x.meter_id == m.meter_id) = some m :=
      meters_find_self db.meters hndm m hmem
    have hfs : db.stalls.find? (fun x => x.stall_id == m.stall_id) = some s := by
      have h0 := stalls_find_self db.stalls hnds s hsmem
      rw [hsid] at h0
      exact h0
    have hrest : ∀ m' ∈ rest, m' ∈ db.meters
        ∧ ∃ s ∈ db.stalls, s.stall_id = m'.stall_id ∧ s.building_id = bid :=
      fun m' hm' => hall m' (List.mem_cons_of_mem _ hm')
    have hinner : BillingEngine.computeBillingForMeter db m.meter_id ed pen (some l) now
        ≠ .error .forbidden := by
      intro hcontr
      have hv := (computeBillingForMeter_forbidden_iff db m.meter_id ed pen l now m s
        hfm hfs).mp hcontr
      rw [← restrictViolated_some_iff, hsbid] at hv
      exact hres hv
    simp only [BillingEngine.buildingMeterLoop] at h
    rcases hc : BillingEngine.computeBillingForMeter db m.meter_id ed pen (some l) now
      with e | r
    · rw [hc] at h
      cases e
      case tenantNotFound => exact ih hrest h
      case forbidden => exact hinner hc
      all_goals simp at h
    · rw [hc] at h
      rcases hrec : BillingEngine.buildingMeterLoop db ed pen (some l) now rest with e' | rs
      · rw [hrec] at h
        simp only [Except.error.injEq] at h
        rw [h] at hrec
        exact ih hrest hrec
      · rw [hrec] at h
        simp at h

/-- The meters of a building: the stalls of the building, then the
meters on those stalls (the two `findAll`s of
`computeBillingForBuilding`). -/
def BillingEngine.buildingMeters (db : Db) (bid : String) : List MeterRow :=
  db.meters.filter (fun m =>
    ((db.stalls.filter (fun s => s.building_id == bid)).map (fun s => s.stall_id)).contains
      m.stall_id)

/-- `computeBillingForBuilding` unfolded: guard first, then the loop
over the building's meters. -/
theorem computeBillingForBuilding_eq (db : Db) (bid : String) (ed : Ymd) (pen : ℚ)
    (restrict : Option (List String)) (now : String) :
    BillingEngine.computeBillingForBuilding db bid ed pen restrict now
      = if BillingEngine.restrictViolated restrict bid = true then .error .forbidden
        else (BillingEngine.buildingMeterLoop db ed pen restrict now
          (BillingEngine.buildingMeters db bid)).map BillingEngine.finalize := rfl

/-- C10: the billing entry points raise Forbidden exactly when the
allow-list is a non-empty array missing the resolved building's id (at
meter scope the stall's building, at building scope the requested
building, ids being unique); an empty allow-list behaves exactly like
no restriction at all — the computation proceeds unrestricted. -/
theorem c10_scope_restriction :
    ∀ (db : Db) (ed : Ymd) (pen : ℚ) (now : String) (mid bid : String) (l : List String),
      (BillingEngine.computeBillingForMeter db mid ed pen (some []) now
        = BillingEngine.computeBillingForMeter db mid ed pen none now)
      ∧ (BillingEngine.computeBillingForBuilding db bid ed pen (some []) now
        = BillingEngine.computeBillingForBuilding db bid ed pen none now)
      ∧ (∀ meter stall,
          db.meters.find? (fun x => x.meter_id == mid) = some meter →
          db.stalls.find? (fun x => x.stall_id == meter.stall_id) = some stall →
          (BillingEngine.computeBillingForMeter db mid ed pen (some l) now
              = .error .forbidden
            ↔ l ≠ [] ∧ stall.building_id ∉ l))
      ∧ ((db.meters.map (fun x => x.meter_id)).Nodup →
          (db.stalls.map (fun x => x.stall_id)).Nodup →
          (BillingEngine.computeBillingForBuilding db bid ed pen (some l) now
              = .error .forbidden
            ↔ l ≠ [] ∧ bid ∉ l)) := by
  intro db ed pen now mid bid l
  refine ⟨computeBillingForMeter_restrict_empty db mid ed pen now,
    computeBillingForBuilding_restrict_empty db bid ed pen now,
    fun meter stall hm hs =>
      computeBillingForMeter_forbidden_iff db mid ed pen l now meter stall hm hs,
    fun hndm hnds => ?_⟩
  rw [← restrictViolated_some_iff l bid]
  constructor
  · intro h
    by_cases hv : BillingEngine.restrictViolated (some l) bid = true
    · exact hv
    · exfalso
      rw [computeBillingForBuilding_eq, if_neg hv] at h
      have hloop : BillingEngine.buildingMeterLoop db ed pen (some l) now
          (BillingEngine.buildingMeters db bid) = .error .forbidden := by
        rcases hx : BillingEngine.buildingMeterLoop db ed pen (some l) now
            (BillingEngine.buildingMeters db bid) with e' | rs
        · rw [hx] at h
          simp only [Except.map, Except.error.injEq] at h
          subst h
          rfl
        · rw [hx] at h
          simp [Except.map] at h
      have hprem : ∀ m ∈ BillingEngine.buildingMeters db bid, m ∈ db.meters
          ∧ ∃ s ∈ db.stalls, s.stall_id = m.stall_id ∧ s.building_id = bid := by
        intro m hm
        have h1 := List.mem_filter.mp hm
        refine ⟨h1.1, ?_⟩
        have h2 : m.stall_id
            ∈ (db.stalls.filter (fun s => s.building_id == bid)).map (fun s => s.stall_id) :=
          List.elem_iff.mp h1.2
        obtain ⟨s, hsf, hsid⟩ := List.mem_map.mp h2
        have h4 := List.mem_filter.mp hsf
        exact ⟨s, h4.1, hsid, eq_of_beq h4.2⟩
      exact buildingMeterLoop_ne_forbidden db ed pen l now bid hv hndm hnds
        (BillingEngine.buildingMeters db bid) hprem hloop
  · intro hv
    rw [computeBillingForBuilding_eq, if_pos hv]

/-- Database for the C10 witness: one meter on a stall of building B1. -/
def dbC10 : Db :=
  { meters := [⟨"m1", "S1", "electric", 1, "s1"⟩],
    stalls := [⟨"s1", "B1", "t1"⟩],
    buildings := [], tenants := [], vats := [], wts := [], readings := [] }

/-- Witness for C10: a restriction to B2 forbids billing a B1 meter,
restricting a building request to a list missing it forbids it, and an
empty restriction equals no restriction. -/
theorem c10_scope_restriction_witness :
    BillingEngine.computeBillingForMeter dbC10 "m1" ⟨2024, 3, 15⟩ 0 (some ["B2"]) "T"
      = .error .forbidden
    ∧ BillingEngine.computeBillingForBuilding dbC10 "B1" ⟨2024, 3, 15⟩ 0 (some []) "T"
      = BillingEngine.computeBillingForBuilding dbC10 "B1" ⟨2024, 3, 15⟩ 0 none "T"
    ∧ BillingEngine.computeBillingForBuilding dbC10 "B2" ⟨2024, 3, 15⟩ 0 (some ["B1"]) "T"
      = .error .forbidden :=
  ⟨((c10_scope_restriction dbC10 ⟨2024, 3, 15⟩ 0 "T" "m1" "B1" ["B2"]).2.2.1
      ⟨"m1", "S1", "electric", 1, "s1"⟩ ⟨"s1", "B1", "t1"⟩
      (by decide) (by decide)).mpr (by decide),
   (c10_scope_restriction dbC10 ⟨2024, 3, 15⟩ 0 "T" "m1" "B1" []).2.1,
   ((c10_scope_restriction dbC10 ⟨2024, 3, 15⟩ 0 "T" "m1" "B2" ["B1"]).2.2.2
      (by decide) (by decide)).mpr (by decide)⟩
